import Mathlib

/-!
Verification of `src/data_script.py` (VesselTrafficScrap).

The script is embedded shallowly: JSON values become an inductive `Json`
(numbers restricted to the integer fragment), the process environment and
the network become fields of a `World` record, `requests.Session` becomes a
record holding its header dictionary, and the module-level script body
becomes the pure function `runScript` which returns the observable trace of
a run: the HTTP requests issued, the log lines printed, the files written
and the directories created.
-/

/-- Parsed JSON values, with numbers restricted to the integer fragment
(the script's endpoints and the claims only involve integers). -/
inductive Json where
  | null : Json
  | bool (b : Bool) : Json
  | num (n : Int) : Json
  | str (s : String) : Json
  | arr (elems : List Json) : Json
  | obj (fields : List (String × Json)) : Json

/-- Python dict `.get(k)`: the value at key `k`, if present
(first occurrence; parsed JSON dicts have unique keys). -/
def dictGet (fields : List (String × Json)) (k : String) : Option Json :=
  (fields.find? (fun p => p.1 = k)).map (fun p => p.2)

/-- Python dict `.get(k, default)`. -/
def dictGetD (fields : List (String × Json)) (k : String) (d : Json) : Json :=
  (dictGet fields k).getD d

/-- Python truthiness of a parsed-JSON value: `None`, `False`, `0`, `""`,
`[]` and `{}` are falsy, everything else truthy.  Used for
`if not access_token`. -/
def pyFalsy : Json → Bool
  | .null => true
  | .bool b => !b
  | .num n => n = 0
  | .str s => s = ""
  | .arr elems => elems.isEmpty
  | .obj fields => fields.isEmpty

mutual
/-- Python `repr()` of a parsed-JSON value (strings single-quoted),
as used for elements inside `str()` of a container. -/
def pyRepr : Json → String
  | .null => "None"
  | .bool true => "True"
  | .bool false => "False"
  | .num n => toString n
  | .str s => "\x27" ++ s ++ "\x27"
  | .arr elems => "[" ++ pyReprElems elems ++ "]"
  | .obj fields => "\x7b" ++ pyReprFields fields ++ "\x7d"

/-- Comma-joined `repr()`s of list elements. -/
def pyReprElems : List Json → String
  | [] => ""
  | [x] => pyRepr x
  | x :: xs => pyRepr x ++ ", " ++ pyReprElems xs

/-- Comma-joined `repr()`s of dict entries. -/
def pyReprFields : List (String × Json) → String
  | [] => ""
  | [(k, v)] => "\x27" ++ k ++ "\x27: " ++ pyRepr v
  | (k, v) :: kvs => "\x27" ++ k ++ "\x27: " ++ pyRepr v ++ ", " ++ pyReprFields kvs
end

/-- Python `str()` of a parsed-JSON value, as interpolated by the f-string
`f"Bearer {access_token}"`. -/
def pyStr : Json → String
  | .null => "None"
  | .bool true => "True"
  | .bool false => "False"
  | .num n => toString n
  | .str s => s
  | .arr elems => "[" ++ pyReprElems elems ++ "]"
  | .obj fields => "\x7b" ++ pyReprFields fields ++ "\x7d"

/-- Lowercase hexadecimal digit. -/
def hexDigit (n : Nat) : Char :=
  if n < 10 then Char.ofNat (48 + n) else Char.ofNat (87 + n)

/-- Four lowercase hex digits, as in JSON `\uXXXX` escapes. -/
def hex4 (n : Nat) : String :=
  String.mk [hexDigit (n / 4096 % 16), hexDigit (n / 256 % 16),
             hexDigit (n / 16 % 16), hexDigit (n % 16)]

/-- `json.dump` escaping of one character (default `ensure_ascii=True`):
quote, backslash and the short control escapes, `\uXXXX` for other control
or non-ASCII characters (surrogate pairs above the BMP). -/
def jsonEscChar (c : Char) : String :=
  if c = Char.ofNat 34 then "\\\""
  else if c = Char.ofNat 92 then "\\\\"
  else if c = Char.ofNat 10 then "\\n"
  else if c = Char.ofNat 13 then "\\r"
  else if c = Char.ofNat 9 then "\\t"
  else if c = Char.ofNat 8 then "\\b"
  else if c = Char.ofNat 12 then "\\f"
  else if c.toNat < 32 || c.toNat ≥ 128 then
    if c.toNat < 65536 then "\\u" ++ hex4 c.toNat
    else "\\u" ++ hex4 (55296 + (c.toNat - 65536) / 1024)
         ++ "\\u" ++ hex4 (56320 + (c.toNat - 65536) % 1024)
  else String.singleton c

/-- `json.dump` rendering of a string literal. -/
def jsonEscString (s : String) : String :=
  "\"" ++ String.join (s.toList.map jsonEscChar) ++ "\""

/-- `ind` spaces. -/
def spaces (ind : Nat) : String :=
  String.mk (List.replicate ind (Char.ofNat 32))

mutual
/-- `json.dump(value, f, indent=ind)` at nesting level `lvl`. -/
def jdump (ind lvl : Nat) : Json → String
  | .null => "null"
  | .bool true => "true"
  | .bool false => "false"
  | .num n => toString n
  | .str s => jsonEscString s
  | .arr [] => "[]"
  | .arr (x :: xs) =>
      "[\n" ++ jdumpElems ind (lvl + 1) (x :: xs) ++ "\n" ++ spaces (ind * lvl) ++ "]"
  | .obj [] => "\x7b\x7d"
  | .obj (kv :: kvs) =>
      "\x7b\n" ++ jdumpFields ind (lvl + 1) (kv :: kvs) ++ "\n" ++ spaces (ind * lvl) ++ "\x7d"

/-- Array items, one per line, separated by commas. -/
def jdumpElems (ind lvl : Nat) : List Json → String
  | [] => ""
  | [x] => spaces (ind * lvl) ++ jdump ind lvl x
  | x :: xs => spaces (ind * lvl) ++ jdump ind lvl x ++ ",\n" ++ jdumpElems ind lvl xs

/-- Object entries, one per line, separated by commas. -/
def jdumpFields (ind lvl : Nat) : List (String × Json) → String
  | [] => ""
  | [(k, v)] => spaces (ind * lvl) ++ jsonEscString k ++ ": " ++ jdump ind lvl v
  | (k, v) :: kvs =>
      spaces (ind * lvl) ++ jsonEscString k ++ ": " ++ jdump ind lvl v ++ ",\n"
      ++ jdumpFields ind lvl kvs
end

/-- `json.dump(value, f, indent=ind)`: the full serialized document. -/
def jsonDumps (value : Json) (ind : Nat) : String :=
  jdump ind 0 value

/-! ## Network, session and world model -/

/-- One HTTP request as issued by `requests`: method, URL, the headers sent
(the session's header dict) and the JSON body for `json=` POSTs. -/
structure Request where
  method : String
  url : String
  headers : List (String × String)
  body : Option Json

/-- Outcome of issuing a request: a transport-level exception
(`requests.RequestException` from `session.post`/`session.get`), or a
response with a status code and a body.  `body = none` models a body that
is not valid JSON, so `response.json()` raises. -/
inductive HttpResult where
  | transportError (msg : String)
  | response (status : Nat) (body : Option Json)

/-- `requests.Session`: for this script only the header dict matters. -/
structure Session where
  headers : List (String × String)

/-- Python exceptions the script can raise or catch. -/
inductive PyExn where
  | httpError (status : Nat)
  | jsonDecodeError
  | attributeError
  | valueError (msg : String)
  | transportError (msg : String)

/-- `str(e)` for the exceptions above (`requests` message texts modelled
abstractly; only the `ValueError` text is fixed by the script itself). -/
def excMessage : PyExn → String
  | .httpError s => toString s ++ " Error"
  | .jsonDecodeError => "Expecting value"
  | .attributeError => "object has no attribute get"
  | .valueError m => m
  | .transportError m => m

/-- A fallible Python computation: a value or an uncaught exception. -/
inductive PyResult (α : Type) where
  | ok (a : α)
  | exn (e : PyExn)

/-- The script's environment: `os.getenv`, the network (a response for
every request), the default headers of a fresh `requests.Session()`, the
directory of the script (`BASE_DIR`) and the current wall-clock time in
the America/Vancouver zone. -/
structure World where
  env : String → Option String
  respond : Request → HttpResult
  defaultHeaders : List (String × String)
  baseDir : String
  vancouverNow : Nat × Nat × Nat × Nat × Nat × Nat

/-- `requests` header dicts are case-insensitive: `update` replaces any
entry with the same lowercased key and appends the new one. -/
def headersUpdate (hs : List (String × String)) (k v : String) :
    List (String × String) :=
  hs.filter (fun p => p.1.toLower ≠ k.toLower) ++ [(k, v)]

/-- Case-insensitive header lookup. -/
def headersGet (hs : List (String × String)) (k : String) : Option String :=
  (hs.find? (fun p => p.1.toLower = k.toLower)).map (fun p => p.2)

/-- `raise_for_status()` raises `requests.HTTPError` exactly for status
codes in 400..599. -/
def raiseForStatus (status : Nat) : Bool :=
  400 ≤ status && status < 600

/-- `os.path.join(a, b)` for a relative `b`: insert a separator unless `a`
is empty or already ends with one (last character `/`). -/
def pathJoin (a b : String) : String :=
  if a = "" then b
  else if a.toList.getLast? = some (Char.ofNat 47) then a ++ b
  else a ++ "/" ++ b

/-- Zero-padded decimal of at least `w` digits, as in `strftime`. -/
def padNum (w n : Nat) : String :=
  let s := toString n
  String.mk (List.replicate (w - s.length) (Char.ofNat 48)) ++ s

/-- `vancouver_time.strftime('%Y-%m-%d_%H-%M-%S')`. -/
def strftimeTs : Nat × Nat × Nat × Nat × Nat × Nat → String
  | (y, mo, d, h, mi, s) =>
      padNum 4 y ++ "-" ++ padNum 2 mo ++ "-" ++ padNum 2 d ++ "_"
      ++ padNum 2 h ++ "-" ++ padNum 2 mi ++ "-" ++ padNum 2 s

/-- `os.makedirs(d, exist_ok=True)` on a set of existing directories:
creates `d` when absent, no-op (and no error) when present. -/
def makedirsExistOk (dirs : List String) (d : String) : List String :=
  if d ∈ dirs then dirs else dirs ++ [d]

/-! ## The script's fixed URLs -/

def url_login : String := "https://ppaportal.portlink.co/api/accounts/login"

def url_currentVesselTraffic : String :=
  "https://ppaportal.portlink.co/api/pdams/GetCurrentVesselTraffic"

def url_positionReport : String :=
  "https://ppaportal.portlink.co/api/map/PositionReport"

/-! ## `create_authenticated_session` -/

/-- The JSON body of the login POST: `{"email": ..., "password": ...}`
with `os.getenv` results; an absent variable is Python `None`, serialized
by `requests` as JSON `null`. -/
def loginPayload (env : String → Option String) : Json :=
  .obj [("email", ((env "EMAIL").map Json.str).getD .null),
        ("password", ((env "PASSWORD").map Json.str).getD .null)]

/-- The login POST request, sent with a fresh session's default headers. -/
def loginRequest (w : World) : Request :=
  { method := "POST", url := url_login, headers := w.defaultHeaders,
    body := some (loginPayload w.env) }

/-- `create_authenticated_session()`: POST the credentials, raise on a
4xx/5xx status, parse the body, read `access_token` with `.get`, raise
`ValueError` when it is absent or falsy, else return the session with the
`authorization: Bearer <token>` header installed.  Paired with the list of
requests the call issued. -/
def create_authenticated_session (w : World) : PyResult Session × List Request :=
  let result : PyResult Session :=
    match w.respond (loginRequest w) with
    | .transportError m => .exn (.transportError m)
    | .response status body =>
      if raiseForStatus status then .exn (.httpError status)
      else
        match body with
        | none => .exn .jsonDecodeError
        | some (.obj fields) =>
          let access_token := dictGetD fields "access_token" .null
          if pyFalsy access_token then
            .exn (.valueError "No access token found in login response")
          else
            .ok { headers := headersUpdate w.defaultHeaders "authorization"
                               ("Bearer " ++ pyStr access_token) }
        | some _ => .exn .attributeError
  (result, [loginRequest w])

/-! ## `getDataAPI` -/

/-- A GET issued through the authenticated session: it carries exactly the
session's headers. -/
def getRequest (s : Session) (url : String) : Request :=
  { method := "GET", url := url, headers := s.headers, body := none }

/-- The line `getDataAPI` prints when it catches an exception. -/
def fetchErrorLog (url : String) (e : PyExn) : String :=
  "Error fetching data from " ++ url ++ ": " ++ excMessage e

/-- `getDataAPI(session, url)`: GET the URL, raise for 4xx/5xx, parse the
body and return its `data` field (`None` when missing); every exception is
caught, logged and turned into `None`.  Returns the Python result (with
`None` as `Json.null`) and the log line, if any. -/
def getDataAPI (w : World) (s : Session) (url : String) : Json × Option String :=
  match w.respond (getRequest s url) with
  | .transportError m => (.null, some (fetchErrorLog url (.transportError m)))
  | .response status body =>
    if raiseForStatus status then
      (.null, some (fetchErrorLog url (.httpError status)))
    else
      match body with
      | none => (.null, some (fetchErrorLog url .jsonDecodeError))
      | some (.obj fields) => (dictGetD fields "data" .null, none)
      | some _ => (.null, some (fetchErrorLog url .attributeError))

/-! ## The module-level script body -/

/-- Everything a run observably does. -/
structure RunResult where
  outcome : Except PyExn Unit
  requests : List Request
  logs : List String
  dirsMade : List String
  files : List (String × String)
  collected : Option Json

/-- The `collected_data` dict built from the two fetches. -/
def scriptCollected (w : World) (s : Session) : Json :=
  .obj [("currentVesselTraffic", (getDataAPI w s url_currentVesselTraffic).1),
        ("positionReport", (getDataAPI w s url_positionReport).1)]

/-- `os.path.join(BASE_DIR, "data")`. -/
def dataFolder (w : World) : String := pathJoin w.baseDir "data"

/-- The timestamped output filename. -/
def outFilename (w : World) : String := strftimeTs w.vancouverNow ++ ".json"

/-- The module-level statements of `data_script.py`, run top to bottom:
authenticate (an exception aborts the run with nothing fetched or
written), fetch both endpoints, assemble `collected_data`, compute the
Vancouver timestamp, create the data folder and dump the JSON file. -/
def runScript (w : World) : RunResult :=
  match create_authenticated_session w with
  | (.exn e, reqs) =>
      { outcome := .error e, requests := reqs, logs := [], dirsMade := [],
        files := [], collected := none }
  | (.ok s, reqs) =>
      let (currentVesselTraffic, log1) := getDataAPI w s url_currentVesselTraffic
      let (positionReport, log2) := getDataAPI w s url_positionReport
      let collected_data : Json :=
        .obj [("currentVesselTraffic", currentVesselTraffic),
              ("positionReport", positionReport)]
      let filename := outFilename w
      let file_path := pathJoin (dataFolder w) filename
      { outcome := .ok (),
        requests := reqs ++ [getRequest s url_currentVesselTraffic,
                             getRequest s url_positionReport],
        logs := log1.toList ++ log2.toList ++ ["Saved data to " ++ filename],
        dirsMade := [dataFolder w],
        files := [(file_path, jsonDumps collected_data 2)],
        collected := some collected_data }

/-- The value at a top-level key of a parsed JSON document, `Json.null`
when the document is not an object or lacks the key (the shape of
`response.json().get(k, None)` results observed through `getDataAPI`). -/
def topLevelGet (j : Json) (k : String) : Json :=
  match j with
  | .obj fields => dictGetD fields k .null
  | _ => .null

/-! ## Helper lemmas -/

theorem create_authenticated_session_requests (w : World) :
    create_authenticated_session w = ((create_authenticated_session w).1, [loginRequest w]) :=
  rfl

theorem headersGet_update (hs : List (String × String)) (k v : String) :
    headersGet (headersUpdate hs k v) k = some v := by
  unfold headersGet headersUpdate
  induction hs with
  | nil => simp
  | cons p t ih =>
      by_cases h : p.1.toLower = k.toLower
      · simp [h]
      · simp [List.filter_cons, h, List.find?_cons]

/-- Unfolding of the authenticator's result as a case split on the login
response. -/
theorem auth_eq (w : World) :
    (create_authenticated_session w).1 =
      (match w.respond (loginRequest w) with
       | .transportError m => .exn (.transportError m)
       | .response status body =>
         if raiseForStatus status then .exn (.httpError status)
         else
           match body with
           | none => .exn .jsonDecodeError
           | some (.obj fields) =>
             if pyFalsy (dictGetD fields "access_token" .null) then
               .exn (.valueError "No access token found in login response")
             else
               .ok { headers := headersUpdate w.defaultHeaders "authorization"
                       ("Bearer " ++ pyStr (dictGetD fields "access_token" .null)) }
           | some _ => .exn .attributeError) :=
  rfl

/-- Computation rule for the authenticator when the login response is a
JSON object with a non-error status. -/
theorem auth_of_response_obj (w : World) (st : Nat) (fields : List (String × Json))
    (h : w.respond (loginRequest w) = .response st (some (.obj fields)))
    (hst : raiseForStatus st = false) :
    (create_authenticated_session w).1 =
      (if pyFalsy (dictGetD fields "access_token" .null) then
        .exn (.valueError "No access token found in login response")
       else
        .ok { headers := headersUpdate w.defaultHeaders "authorization"
                ("Bearer " ++ pyStr (dictGetD fields "access_token" .null)) }) := by
  unfold create_authenticated_session
  rw [h]
  simp [hst]

/-- Inversion: a successfully returned session comes from a non-error
object response whose `access_token` is truthy, and carries exactly the
updated header dict. -/
theorem auth_ok_inv (w : World) (s : Session)
    (h : (create_authenticated_session w).1 = .ok s) :
    ∃ st fields, w.respond (loginRequest w) = .response st (some (.obj fields)) ∧
      raiseForStatus st = false ∧
      pyFalsy (dictGetD fields "access_token" .null) = false ∧
      s.headers = headersUpdate w.defaultHeaders "authorization"
        ("Bearer " ++ pyStr (dictGetD fields "access_token" .null)) := by
  rw [auth_eq] at h
  split at h
  · exact absurd h (by simp)
  · split at h
    · exact absurd h (by simp)
    · split at h
      · exact absurd h (by simp)
      · split at h
        · exact absurd h (by simp)
        · injection h with h2
          exact ⟨_, _, by assumption, by simp [*], by simp [*], by rw [← h2]⟩
      · exact absurd h (by simp)

/-- The run aborts as soon as the authenticator raises: only the login
POST was issued, nothing fetched, logged, created or written. -/
theorem runScript_exn (w : World) (e : PyExn)
    (h : (create_authenticated_session w).1 = .exn e) :
    runScript w = { outcome := .error e, requests := [loginRequest w],
                    logs := [], dirsMade := [], files := [], collected := none } := by
  have hp : create_authenticated_session w = (.exn e, [loginRequest w]) := by
    rw [← h]; rfl
  unfold runScript
  rw [hp]

/-- The run after a successful login, expressed through the trace pieces. -/
theorem runScript_ok (w : World) (s : Session)
    (h : (create_authenticated_session w).1 = .ok s) :
    runScript w =
      { outcome := .ok (),
        requests := [loginRequest w, getRequest s url_currentVesselTraffic,
                     getRequest s url_positionReport],
        logs := (getDataAPI w s url_currentVesselTraffic).2.toList
                ++ (getDataAPI w s url_positionReport).2.toList
                ++ ["Saved data to " ++ outFilename w],
        dirsMade := [dataFolder w],
        files := [(pathJoin (dataFolder w) (outFilename w),
                   jsonDumps (scriptCollected w s) 2)],
        collected := some (scriptCollected w s) } := by
  have hp : create_authenticated_session w = (.ok s, [loginRequest w]) := by
    rw [← h]; rfl
  unfold runScript
  rw [hp]
  rfl

/-- `getDataAPI` depends on the world only through the response to the one
GET it issues. -/
theorem getDataAPI_congr (w₁ w₂ : World) (s : Session) (url : String)
    (h : w₁.respond (getRequest s url) = w₂.respond (getRequest s url)) :
    getDataAPI w₁ s url = getDataAPI w₂ s url := by
  unfold getDataAPI
  rw [h]

/-! ## Concrete environments used to instantiate the theorems -/

/-- A session with an empty header dict. -/
def S0 : Session := { headers := [] }

/-- A login endpoint accepting the credentials with token `T`. -/
def mockLoginResp : HttpResult :=
  .response 200 (some (.obj [("access_token", .str "T")]))

/-- A network serving the login endpoint and the two data endpoints, the
latter two with configurable responses. -/
def mockRespond (cvt pr : HttpResult) : Request → HttpResult := fun r =>
  if r.url = url_login then mockLoginResp
  else if r.url = url_currentVesselTraffic then cvt
  else if r.url = url_positionReport then pr
  else .response 404 none

/-- A fully-populated environment around `mockRespond`. -/
def mkMockWorld (cvt pr : HttpResult) : World :=
  { env := fun k => if k = "EMAIL" then some "user" else
             if k = "PASSWORD" then some "pw" else none,
    respond := mockRespond cvt pr,
    defaultHeaders := [],
    baseDir := "/app",
    vancouverNow := (2025, 1, 2, 3, 4, 5) }

/-- The end-to-end mock of the spec: vessel traffic `[1,2,3]`, position
report `null`. -/
def WMOCK : World :=
  mkMockWorld (.response 200 (some (.obj [("data", .arr [.num 1, .num 2, .num 3])])))
              (.response 200 (some (.obj [("data", .null)])))

/-- The session `WMOCK`'s login produces. -/
def SMOCK : Session := { headers := [("authorization", "Bearer T")] }

/-- Like `WMOCK` but the vessel-traffic endpoint fails with a 500. -/
def W9B : World :=
  mkMockWorld (.response 500 none)
              (.response 200 (some (.obj [("data", .null)])))

/-- Every request is answered 300 with a JSON body carrying `data`. -/
def W300 : World :=
  { env := fun _ => none,
    respond := fun _ => .response 300 (some (.obj [("data", .num 5)])),
    defaultHeaders := [], baseDir := "", vancouverNow := (0, 0, 0, 0, 0, 0) }

/-- Every request raises a transport error. -/
def WERR : World :=
  { env := fun _ => none,
    respond := fun _ => .transportError "boom",
    defaultHeaders := [], baseDir := "", vancouverNow := (0, 0, 0, 0, 0, 0) }

/-- Every request is answered 200 with body `{"data": {"a": 1}}`. -/
def WD1 : World :=
  { env := fun _ => none,
    respond := fun _ => .response 200 (some (.obj [("data", .obj [("a", .num 1)])])),
    defaultHeaders := [], baseDir := "", vancouverNow := (0, 0, 0, 0, 0, 0) }

/-- Every request is answered 200 with body `{}`. -/
def WD2 : World :=
  { env := fun _ => none,
    respond := fun _ => .response 200 (some (.obj [])),
    defaultHeaders := [], baseDir := "", vancouverNow := (0, 0, 0, 0, 0, 0) }

/-- The login endpoint answers 200 with an empty-string `access_token`. -/
def WEMPTYTOK : World :=
  { env := fun _ => none,
    respond := fun r => if r.url = url_login then
        .response 200 (some (.obj [("access_token", .str "")]))
      else .response 404 none,
    defaultHeaders := [], baseDir := "", vancouverNow := (0, 0, 0, 0, 0, 0) }

/-- The login endpoint answers 200 with a JSON-null `access_token`. -/
def WNULLTOK : World :=
  { env := fun _ => none,
    respond := fun r => if r.url = url_login then
        .response 200 (some (.obj [("access_token", .null)]))
      else .response 404 none,
    defaultHeaders := [], baseDir := "", vancouverNow := (0, 0, 0, 0, 0, 0) }

/-- The login endpoint rejects the credentials with a 401. -/
def WFAIL : World :=
  { env := fun _ => none,
    respond := fun _ => .response 401 (some (.obj [])),
    defaultHeaders := [], baseDir := "/app", vancouverNow := (0, 0, 0, 0, 0, 0) }

/-- `EMAIL` is unset, `PASSWORD` is `pw`, and the login endpoint accepts
whatever body it receives. -/
def WC7 : World :=
  { env := fun k => if k = "PASSWORD" then some "pw" else none,
    respond := fun r => if r.url = url_login then mockLoginResp
                        else .response 200 (some (.obj [("data", .null)])),
    defaultHeaders := [], baseDir := "/app", vancouverNow := (2025, 1, 2, 3, 4, 5) }

/-! ## Claims -/

/-- C1, counterexample: the claim says every non-2xx status makes
`fetchData` return null and log, but `raise_for_status` raises only for
4xx/5xx: a 300 response with body `{"data": 5}` yields the data value 5
and logs nothing. -/
theorem C1_counterexample :
    W300.respond (getRequest S0 url_currentVesselTraffic)
        = .response 300 (some (.obj [("data", .num 5)])) ∧
    ¬ (200 ≤ 300 ∧ 300 < 300) ∧
    getDataAPI W300 S0 url_currentVesselTraffic = (.num 5, none) :=
  ⟨rfl, by decide, rfl⟩

/-- C1 (amended): for a transport error, a status in 400..599 (the
statuses `raise_for_status` treats as errors — not every non-2xx status),
or a body that is not valid JSON, `getDataAPI` returns null and logs a
message naming the failing URL; being a total function into
`Json × Option String` it propagates no exception. -/
theorem C1_fetch_failure_absorbed (w : World) (s : Session) (url : String) :
    (∀ m, w.respond (getRequest s url) = .transportError m →
      getDataAPI w s url = (.null, some (fetchErrorLog url (.transportError m)))) ∧
    (∀ st body, w.respond (getRequest s url) = .response st body →
      raiseForStatus st = true →
      getDataAPI w s url = (.null, some (fetchErrorLog url (.httpError st)))) ∧
    (∀ st, w.respond (getRequest s url) = .response st none →
      raiseForStatus st = false →
      getDataAPI w s url = (.null, some (fetchErrorLog url .jsonDecodeError))) := by
  refine ⟨?_, ?_, ?_⟩
  · intro m h
    unfold getDataAPI
    rw [h]
  · intro st body h hst
    unfold getDataAPI
    rw [h]
    simp [hst]
  · intro st h hst
    unfold getDataAPI
    rw [h]
    simp [hst]

theorem C1_fetch_failure_absorbed_witness :
    getDataAPI WERR S0 url_positionReport =
      (.null,
       some "Error fetching data from https://ppaportal.portlink.co/api/map/PositionReport: boom") :=
  (C1_fetch_failure_absorbed WERR S0 url_positionReport).1 "boom" rfl

/-- C2: for a 2xx response whose body parses as JSON, `getDataAPI` returns
the value at the top-level key `data`, and null when that key is absent
(also when the body is not an object, which has no such key). -/
theorem C2_success_returns_data (w : World) (s : Session) (url : String)
    (st : Nat) (j : Json)
    (hresp : w.respond (getRequest s url) = .response st (some j))
    (h2xx : 200 ≤ st ∧ st < 300) :
    (getDataAPI w s url).1 = topLevelGet j "data" := by
  have hst : raiseForStatus st = false := by
    have h2 := h2xx.2
    simp [raiseForStatus]
    omega
  unfold getDataAPI
  rw [hresp]
  rcases j with _ | b | n | t | elems | fields <;> simp [hst, topLevelGet]

theorem C2_success_returns_data_witness :
    (getDataAPI WD1 S0 url_currentVesselTraffic).1 = .obj [("a", .num 1)] ∧
    (getDataAPI WD2 S0 url_currentVesselTraffic).1 = .null :=
  ⟨(C2_success_returns_data WD1 S0 url_currentVesselTraffic 200
      (.obj [("data", .obj [("a", .num 1)])]) rfl (by decide)).trans rfl,
   (C2_success_returns_data WD2 S0 url_currentVesselTraffic 200
      (.obj []) rfl (by decide)).trans rfl⟩

/-- C3, counterexample: the claim says the authenticator raises exactly on
a 4xx/5xx status or a missing access-token field, but a 200 response whose
body carries the field with an empty-string value also raises
(`if not access_token`). -/
theorem C3_counterexample :
    WEMPTYTOK.respond (loginRequest WEMPTYTOK)
      = .response 200 (some (.obj [("access_token", .str "")])) ∧
    raiseForStatus 200 = false ∧
    dictGet [("access_token", Json.str "")] "access_token" = some (.str "") ∧
    (create_authenticated_session WEMPTYTOK).1
      = .exn (.valueError "No access token found in login response") :=
  ⟨rfl, rfl, rfl, rfl⟩

/-- C3 (amended): the authenticator returns a session exactly when the
login POST yields a JSON-object body with a status outside 400..599 and a
truthy `access_token`; in every other case — 4xx/5xx status, transport
error, unparseable or non-object body, absent or falsy token — it raises.
There is no retry: the call issues the login POST once, and on failure the
run aborts with that exception. -/
theorem C3_auth_failure_characterization (w : World) :
    ((∃ s, (create_authenticated_session w).1 = .ok s) ↔
      (∃ st fields, w.respond (loginRequest w) = .response st (some (.obj fields)) ∧
        raiseForStatus st = false ∧
        pyFalsy (dictGetD fields "access_token" .null) = false)) ∧
    (create_authenticated_session w).2 = [loginRequest w] ∧
    (∀ e, (create_authenticated_session w).1 = .exn e →
      (runScript w).outcome = .error e ∧ (runScript w).requests = [loginRequest w]) := by
  refine ⟨⟨?_, ?_⟩, rfl, ?_⟩
  · rintro ⟨s, hs⟩
    obtain ⟨st, fields, hr, hst, hf, _⟩ := auth_ok_inv w s hs
    exact ⟨st, fields, hr, hst, hf⟩
  · rintro ⟨st, fields, hr, hst, hf⟩
    rw [auth_of_response_obj w st fields hr hst, if_neg (by simp [hf])]
    exact ⟨_, rfl⟩
  · intro e he
    rw [runScript_exn w e he]
    exact ⟨rfl, rfl⟩

theorem C3_auth_failure_characterization_witness :
    ∃ s, (create_authenticated_session WMOCK).1 = .ok s :=
  (C3_auth_failure_characterization WMOCK).1.mpr
    ⟨200, [("access_token", .str "T")], rfl, rfl, rfl⟩

/-- C4: when the login POST succeeds with `access_token` a non-empty
string `t`, the authenticator returns a session whose header dict carries
`authorization: Bearer t`, and every GET issued through that session (as
`getDataAPI` issues them) carries that same bearer header. -/
theorem C4_bearer_header (w : World) (st : Nat) (fields : List (String × Json))
    (t : String)
    (hresp : w.respond (loginRequest w) = .response st (some (.obj fields)))
    (hst : raiseForStatus st = false)
    (htok : dictGet fields "access_token" = some (.str t))
    (hne : t ≠ "") :
    ∃ s, (create_authenticated_session w).1 = .ok s ∧
      headersGet s.headers "authorization" = some ("Bearer " ++ t) ∧
      ∀ url, headersGet (getRequest s url).headers "authorization"
        = some ("Bearer " ++ t) := by
  have hd : dictGetD fields "access_token" .null = .str t := by
    unfold dictGetD
    rw [htok]
    rfl
  have hfalse : pyFalsy (dictGetD fields "access_token" .null) = false := by
    rw [hd]
    simp [pyFalsy, hne]
  refine ⟨{ headers := headersUpdate w.defaultHeaders "authorization"
              ("Bearer " ++ pyStr (dictGetD fields "access_token" .null)) },
          ?_, ?_, ?_⟩
  · rw [auth_of_response_obj w st fields hresp hst, if_neg (by simp [hfalse])]
  · rw [hd]
    exact headersGet_update w.defaultHeaders "authorization" ("Bearer " ++ t)
  · intro url
    rw [hd]
    exact headersGet_update w.defaultHeaders "authorization" ("Bearer " ++ t)

theorem C4_bearer_header_witness :
    ∃ s, (create_authenticated_session WMOCK).1 = .ok s ∧
      headersGet s.headers "authorization" = some ("Bearer " ++ "T") ∧
      ∀ url, headersGet (getRequest s url).headers "authorization"
        = some ("Bearer " ++ "T") :=
  C4_bearer_header WMOCK 200 [("access_token", .str "T")] "T" rfl rfl rfl (by decide)

/-- C5: when authentication raises, the run aborts with that exception
having issued only the login POST: no GET is sent, no log line is printed,
no directory is created and no file is written. -/
theorem C5_auth_failure_aborts (w : World) (e : PyExn)
    (h : (create_authenticated_session w).1 = .exn e) :
    (runScript w).outcome = .error e ∧
    (runScript w).requests = [loginRequest w] ∧
    (∀ r, r ∈ (runScript w).requests → r.method = "POST") ∧
    (runScript w).files = [] ∧
    (runScript w).dirsMade = [] ∧
    (runScript w).logs = [] := by
  rw [runScript_exn w e h]
  refine ⟨rfl, rfl, ?_, rfl, rfl, rfl⟩
  intro r hr
  simp at hr
  rw [hr]
  rfl

theorem C5_auth_failure_aborts_witness :
    (runScript WFAIL).outcome = .error (.httpError 401) ∧
    (runScript WFAIL).files = [] :=
  ⟨(C5_auth_failure_aborts WFAIL (.httpError 401) rfl).1,
   (C5_auth_failure_aborts WFAIL (.httpError 401) rfl).2.2.2.1⟩

/-- C6: whenever authentication succeeds, exactly one file is written —
the dump of the collected object — whatever the two fetches returned. -/
theorem C6_always_writes_one_file (w : World) (s : Session)
    (h : (create_authenticated_session w).1 = .ok s) :
    (runScript w).files =
      [(pathJoin (dataFolder w) (outFilename w),
        jsonDumps (scriptCollected w s) 2)] := by
  rw [runScript_ok w s h]

theorem C6_always_writes_one_file_witness :
    (runScript WMOCK).files =
      [("/app/data/2025-01-02_03-04-05.json",
        "\x7b\n  \"currentVesselTraffic\": [\n    1,\n    2,\n    3\n  ],\n  \"positionReport\": null\n\x7d")] :=
  (C6_always_writes_one_file WMOCK SMOCK rfl).trans rfl

/-- C7 (code bug): with `EMAIL` unset nothing is validated: the login POST
is still issued, its body carrying `"email": null` (`os.getenv` returns
`None`), and if the endpoint accepts that body the whole run succeeds. -/
theorem C7_no_presence_validation :
    WC7.env "EMAIL" = none ∧
    loginPayload WC7.env = .obj [("email", .null), ("password", .str "pw")] ∧
    (runScript WC7).requests.head? = some (loginRequest WC7) ∧
    (∃ s, (create_authenticated_session WC7).1 = .ok s) ∧
    (runScript WC7).outcome = .ok () :=
  ⟨rfl, rfl, rfl, ⟨_, rfl⟩, rfl⟩

/-- C8: on success the single output file is `<baseDir>/data/<ts>.json`
with `ts` the Vancouver clock formatted `%Y-%m-%d_%H-%M-%S`, its content
the indent-2 JSON dump of an object with exactly the two keys
`currentVesselTraffic` and `positionReport`; the data directory is the one
created, and `exist_ok=True` creation is idempotent. -/
theorem C8_output_layout (w : World) (s : Session)
    (h : (create_authenticated_session w).1 = .ok s) :
    (runScript w).files =
      [(pathJoin (pathJoin w.baseDir "data") (strftimeTs w.vancouverNow ++ ".json"),
        jsonDumps (scriptCollected w s) 2)] ∧
    (∃ v p, scriptCollected w s =
      .obj [("currentVesselTraffic", v), ("positionReport", p)]) ∧
    (runScript w).dirsMade = [pathJoin w.baseDir "data"] ∧
    (∀ dirs, makedirsExistOk (makedirsExistOk dirs (pathJoin w.baseDir "data"))
        (pathJoin w.baseDir "data") = makedirsExistOk dirs (pathJoin w.baseDir "data")) := by
  rw [runScript_ok w s h]
  refine ⟨rfl, ⟨_, _, rfl⟩, rfl, ?_⟩
  intro dirs
  unfold makedirsExistOk
  by_cases hd : pathJoin w.baseDir "data" ∈ dirs
  · simp [hd]
  · simp [hd]

theorem C8_output_layout_witness :
    (runScript WMOCK).dirsMade = ["/app/data"] :=
  ((C8_output_layout WMOCK SMOCK rfl).2.2.1).trans rfl

/-- C9: the value recorded for one endpoint does not depend on the other
endpoint's response: two runs over environments agreeing everywhere except
on requests to the vessel-traffic URL record the same positionReport
value, and symmetrically for the currentVesselTraffic value. -/
theorem C9_fetch_noninterference (w₁ w₂ : World)
    (henv : w₁.env = w₂.env) (hdef : w₁.defaultHeaders = w₂.defaultHeaders) :
    ((∀ r, r.url ≠ url_currentVesselTraffic → w₁.respond r = w₂.respond r) →
      (runScript w₁).collected.map (fun c => topLevelGet c "positionReport") =
      (runScript w₂).collected.map (fun c => topLevelGet c "positionReport")) ∧
    ((∀ r, r.url ≠ url_positionReport → w₁.respond r = w₂.respond r) →
      (runScript w₁).collected.map (fun c => topLevelGet c "currentVesselTraffic") =
      (runScript w₂).collected.map (fun c => topLevelGet c "currentVesselTraffic")) := by
  have hlr : loginRequest w₁ = loginRequest w₂ := by
    unfold loginRequest
    rw [henv, hdef]
  have hne1 : url_login ≠ url_currentVesselTraffic := by decide
  have hne2 : url_positionReport ≠ url_currentVesselTraffic := by decide
  have hne3 : url_login ≠ url_positionReport := by decide
  have hne4 : url_currentVesselTraffic ≠ url_positionReport := by decide
  constructor
  · intro hno
    have hauth : (create_authenticated_session w₁).1 = (create_authenticated_session w₂).1 := by
      rw [auth_eq, auth_eq, hlr, hno (loginRequest w₂) hne1, hdef]
    rcases hres : (create_authenticated_session w₂).1 with s | e
    · rw [runScript_ok w₁ s (hauth.trans hres), runScript_ok w₂ s hres]
      refine congrArg some ?_
      show (getDataAPI w₁ s url_positionReport).1 = (getDataAPI w₂ s url_positionReport).1
      rw [getDataAPI_congr w₁ w₂ s url_positionReport
            (hno (getRequest s url_positionReport) hne2)]
    · rw [runScript_exn w₁ e (hauth.trans hres), runScript_exn w₂ e hres]
  · intro hno
    have hauth : (create_authenticated_session w₁).1 = (create_authenticated_session w₂).1 := by
      rw [auth_eq, auth_eq, hlr, hno (loginRequest w₂) hne3, hdef]
    rcases hres : (create_authenticated_session w₂).1 with s | e
    · rw [runScript_ok w₁ s (hauth.trans hres), runScript_ok w₂ s hres]
      refine congrArg some ?_
      show (getDataAPI w₁ s url_currentVesselTraffic).1 = (getDataAPI w₂ s url_currentVesselTraffic).1
      rw [getDataAPI_congr w₁ w₂ s url_currentVesselTraffic
            (hno (getRequest s url_currentVesselTraffic) hne4)]
    · rw [runScript_exn w₁ e (hauth.trans hres), runScript_exn w₂ e hres]

theorem C9_fetch_noninterference_witness :
    (runScript WMOCK).collected.map (fun c => topLevelGet c "positionReport") =
    (runScript W9B).collected.map (fun c => topLevelGet c "positionReport") :=
  (C9_fetch_noninterference WMOCK W9B rfl rfl).1 (fun r h => by
    show mockRespond _ _ r = mockRespond _ _ r
    unfold mockRespond
    by_cases h1 : r.url = url_login
    · simp [h1]
    · simp [h1, h])

/-- C10: a present-but-falsy `access_token` (empty string, JSON null, ...)
raises exactly the `ValueError` an absent field raises, and every
successfully returned session comes from a truthy token, so a client with
an empty bearer token is never produced. -/
theorem C10_falsy_token_rejected (w : World) (st : Nat)
    (fields : List (String × Json)) (v : Json)
    (hresp : w.respond (loginRequest w) = .response st (some (.obj fields)))
    (hst : raiseForStatus st = false)
    (htok : dictGet fields "access_token" = some v)
    (hfalsy : pyFalsy v = true) :
    (create_authenticated_session w).1
      = .exn (.valueError "No access token found in login response") ∧
    (∀ (w₂ : World) (st₂ : Nat) (fields₂ : List (String × Json)),
      w₂.respond (loginRequest w₂) = .response st₂ (some (.obj fields₂)) →
      raiseForStatus st₂ = false →
      dictGet fields₂ "access_token" = none →
      (create_authenticated_session w₂).1
        = .exn (.valueError "No access token found in login response")) ∧
    (∀ (w₂ : World) (s₂ : Session),
      (create_authenticated_session w₂).1 = .ok s₂ →
      ∃ st₂ fields₂,
        w₂.respond (loginRequest w₂) = .response st₂ (some (.obj fields₂)) ∧
        pyFalsy (dictGetD fields₂ "access_token" .null) = false ∧
        s₂.headers = headersUpdate w₂.defaultHeaders "authorization"
          ("Bearer " ++ pyStr (dictGetD fields₂ "access_token" .null))) := by
  refine ⟨?_, ?_, ?_⟩
  · have hc : pyFalsy (dictGetD fields "access_token" .null) = true := by
      unfold dictGetD
      rw [htok]
      exact hfalsy
    rw [auth_of_response_obj w st fields hresp hst, if_pos hc]
  · intro w₂ st₂ fields₂ hr₂ hst₂ hnone
    have hc : pyFalsy (dictGetD fields₂ "access_token" .null) = true := by
      unfold dictGetD
      rw [hnone]
      rfl
    rw [auth_of_response_obj w₂ st₂ fields₂ hr₂ hst₂, if_pos hc]
  · intro w₂ s₂ h₂
    obtain ⟨st₂, fields₂, hr₂, _, hf₂, hh₂⟩ := auth_ok_inv w₂ s₂ h₂
    exact ⟨st₂, fields₂, hr₂, hf₂, hh₂⟩

theorem C10_falsy_token_rejected_witness :
    (create_authenticated_session WNULLTOK).1
      = .exn (.valueError "No access token found in login response") :=
  (C10_falsy_token_rejected WNULLTOK 200 [("access_token", .null)] .null
    rfl rfl rfl rfl).1
